import Mathlib

/-!
Verification development for the clauderock launcher/config CLI.

Go strings are modelled as lists of characters (`GoString`); Go `len` is
modelled as UTF-8 byte size, and Go's byte-wise string comparison as
codepoint-lexicographic comparison (these agree on UTF-8 encoded data).
Each definition below mirrors one function of the source, with the AWS
catalog fetch abstracted into an `Except`-valued catalog parameter: the
fetch either fails with an error message or yields the list of inference
profile summaries, each of which carries an optional profile identifier.
-/

/-- Model of a Go string: its sequence of characters. -/
abbrev GoString := List Char

/-- Literal Go strings, written as Lean string literals. -/
def str (s : String) : GoString := s.toList

/-- Go `len(s)`: the UTF-8 byte length of the string. -/
def goLen (s : GoString) : Nat := (s.map Char.utf8Size).sum

/-- Go `strings.Split(s, sep)` for a one-character separator. -/
def goSplit : GoString → Char → List GoString
  | [], _ => [[]]
  | c :: rest, sep =>
    if c = sep then
      [] :: goSplit rest sep
    else
      match goSplit rest sep with
      | [] => [[c]]
      | g :: gs => (c :: g) :: gs

/-- Split a Go string at the first occurrence of a character: models the
`strings.Index` / slice pattern and also `strings.SplitN(s, sep, 2)`.
Returns `none` when the character does not occur (Go `Index` = -1). -/
def splitFirst : GoString → Char → Option (GoString × GoString)
  | [], _ => none
  | c :: rest, sep =>
    if c = sep then some ([], rest)
    else (splitFirst rest sep).map (fun p => (c :: p.1, p.2))

/-- Go `strings.SplitN(s, sep, 2)` for a one-character separator. -/
def goSplitN2 (s : GoString) (sep : Char) : List GoString :=
  match splitFirst s sep with
  | none => [s]
  | some (a, b) => [a, b]

/-- Go byte-wise `<` on strings (codepoint-lexicographic on characters). -/
def goLess : GoString → GoString → Bool
  | [], [] => false
  | [], _ :: _ => true
  | _ :: _, [] => false
  | a :: as, b :: bs => if a < b then true else if b < a then false else goLess as bs

/-- Go `strconv.Atoi`: optional sign, one or more ASCII digits, and the
result must fit in a 64-bit signed integer (otherwise Atoi errors). -/
def goAtoi (s : GoString) : Option Int :=
  let sd : Int × GoString :=
    match s with
    | '+' :: rest => (1, rest)
    | '-' :: rest => (-1, rest)
    | _ => (1, s)
  if sd.2 = [] then none
  else if sd.2.all (fun c => c.isDigit) then
    let n : Nat := sd.2.foldl (fun acc c => acc * 10 + (c.toNat - 48)) 0
    let v : Int := sd.1 * (n : Int)
    if v < -(2 ^ 63) ∨ (2 ^ 63 - 1 : Int) < v then none else some v
  else none

/-! ## ProfileIDGrammar and CatalogMatcher (internal/aws/bedrock.go) -/

/-- `extractModelNameFromVersion`'s loop body: accumulate split tokens,
stopping at the first token that has byte length 8, or starts with `v`,
or contains `:` (bedrock.go lines 97-108). -/
def extractLoop : List GoString → List GoString
  | [] => []
  | part :: rest =>
    if goLen part == 8 || (str "v").isPrefixOf part || part.contains ':' then []
    else part :: extractLoop rest

/-- A token that terminates slug accumulation: byte length exactly 8, or
starting with `v`, or containing `:`. This names the stop condition of
`extractModelNameFromVersion` for the characterization theorems. -/
def isVersionTerminator (t : GoString) : Bool :=
  goLen t == 8 || (str "v").isPrefixOf t || t.contains ':'

/-- `extractModelNameFromVersion` (bedrock.go): split on `-`, accumulate
tokens until a date/version-shaped token, rejoin with `-`. -/
def extractModelNameFromVersion (modelWithVersion : GoString) : GoString :=
  List.intercalate (str "-") (extractLoop (goSplit modelWithVersion '-'))

/-- `IsFullProfileID` (bedrock.go lines 154-161): true iff the segment
before the first `.` is one of the three cross-region geographies. -/
def IsFullProfileID (id : GoString) : Bool :=
  match goSplitN2 id '.' with
  | [p0, _] => p0 = str "us" || p0 = str "eu" || p0 = str "global"
  | _ => false

/-- `ExtractFriendlyModelName` (bedrock.go lines 166-196): strip the
geography, split off the provider, drop the date/version suffix; return
the input unchanged when it is not a full profile ID or parsing fails. -/
def ExtractFriendlyModelName (profileID : GoString) : GoString :=
  if IsFullProfileID profileID then
    match goSplitN2 profileID '.' with
    | [_, remaining] =>
      match splitFirst remaining '.' with
      | none => remaining
      | some (provider, modelWithVersion) =>
        let modelName := extractModelNameFromVersion modelWithVersion
        if modelName ≠ [] then provider ++ '.' :: modelName else profileID
    | _ => profileID
  else profileID

/-- `findMatchingProfile` (bedrock.go lines 63-82): first catalog entry
whose non-nil identifier has `crossRegion ++ "." ++ model` as a string
prefix; `none` models the not-found error. -/
def findMatchingProfile (profiles : List (Option GoString)) (crossRegion model : GoString) :
    Option GoString :=
  match profiles with
  | [] => none
  | p :: rest =>
    match p with
    | some profileID =>
      if (crossRegion ++ '.' :: model).isPrefixOf profileID then some profileID
      else findMatchingProfile rest crossRegion model
    | none => findMatchingProfile rest crossRegion model

/-- The not-found error surfaced by `ResolveModelToProfileID` (bedrock.go
lines 229-237): it reports the requested model, the cross-region, and the
full list of available profile identifiers. -/
structure NotFoundErr where
  model : GoString
  crossRegion : GoString
  available : List GoString
deriving DecidableEq, Repr

/-- All non-nil profile identifiers of the catalog, in catalog order
(`formatAvailableProfiles`, bedrock.go lines 84-92). -/
def availableProfiles (profiles : List (Option GoString)) : List GoString :=
  profiles.filterMap (fun x => x)

/-- The matcher as surfaced by `ResolveModelToProfileID`: the result of
`findMatchingProfile`, with the no-match error carrying the available
profile list the caller attaches via `formatAvailableProfiles`. -/
def findMatch (profiles : List (Option GoString)) (crossRegion model : GoString) :
    Except NotFoundErr GoString :=
  match findMatchingProfile profiles crossRegion model with
  | some profileID => .ok profileID
  | none => .error ⟨model, crossRegion, availableProfiles profiles⟩

example : extractModelNameFromVersion (str "claude-sonnet-4-5-20250929-v1:0") =
    str "claude-sonnet-4-5" := by decide
example : IsFullProfileID (str "global.anthropic.claude-sonnet-4-5-20250929-v1:0") = true := by
  decide
example : IsFullProfileID (str "anthropic.claude-sonnet-4-5") = false := by decide
example : ExtractFriendlyModelName (str "global.anthropic.claude-sonnet-4-5-20250929-v1:0") =
    str "anthropic.claude-sonnet-4-5" := by decide

/-! ## Version comparison (config package, `compareVersions`) -/

/-- The component-wise comparison loop of `compareVersions`: numeric
comparison when both components parse with `Atoi`, otherwise byte-wise
string comparison of the two components. -/
def cmpParts : List GoString → List GoString → Int
  | [], _ => 0
  | _ :: _, [] => 0
  | a :: as, b :: bs =>
    match goAtoi a, goAtoi b with
    | some n1, some n2 =>
      if n1 < n2 then -1 else if n2 < n1 then 1 else cmpParts as bs
    | _, _ =>
      if goLess a b then -1 else if goLess b a then 1 else cmpParts as bs

/-- The zero-padding loops of `compareVersions`: extend a component list
with `"0"` entries up to the longer length. -/
def padParts (l : List GoString) (n : Nat) : List GoString :=
  l ++ List.replicate (n - l.length) (str "0")

/-- `compareVersions` (config package): equal strings compare equal,
`"dev"` is newer than everything, `""` and `"0"` become `"0.0.0"`, then
the dot-separated components are zero-padded and compared pairwise. -/
def compareVersions (v1 v2 : GoString) : Int :=
  if v1 = v2 then 0
  else if v1 = str "dev" then 1
  else if v2 = str "dev" then -1
  else
    let w1 := if v1 = [] ∨ v1 = str "0" then str "0.0.0" else v1
    let w2 := if v2 = [] ∨ v2 = str "0" then str "0.0.0" else v2
    let parts1 := goSplit w1 '.'
    let parts2 := goSplit w2 '.'
    let maxLen := max parts1.length parts2.length
    cmpParts (padParts parts1 maxLen) (padParts parts2 maxLen)

example : compareVersions (str "0.3.0") (str "v0.6.0") = -1 := by decide
example : compareVersions (str "1.2") (str "1.2.0") = 0 := by decide
example : compareVersions (str "0.10.0") (str "0.9.0") = 1 := by decide
example : compareVersions (str "dev") (str "9.9.9") = 1 := by decide

/-! ## Config record and migration engine -/

/-- The configuration record (config package `Config`): version,
profile-type discriminator, AWS fields, API fields, and the three
model-bearing fields. -/
structure Config where
  Version : GoString
  ProfileType : GoString
  Profile : GoString
  Region : GoString
  CrossRegion : GoString
  BaseURL : GoString
  APIKeyID : GoString
  Model : GoString
  FastModel : GoString
  HeavyModel : GoString
deriving DecidableEq, Repr

/-- `ResolveModelToProfileID` (bedrock.go lines 201-237): pass a full
profile ID through unchanged; otherwise fetch the catalog (modelled by
the `catalog` parameter: either a fetch error or the profile list) and
find the first matching profile, reporting the available list on no
match. -/
def resolveModelToProfileID (catalog : Except GoString (List (Option GoString)))
    (crossRegion model : GoString) : Except GoString GoString :=
  if IsFullProfileID model then .ok model
  else
    match catalog with
    | .error e => .error (str "failed to list inference profiles: " ++ e)
    | .ok profiles =>
      match findMatchingProfile profiles crossRegion model with
      | some profileID => .ok profileID
      | none =>
        .error (str "could not find inference profile for model '" ++ model ++
          str "' with cross-region '" ++ crossRegion ++ str "'" ++
          str "\nAvailable profiles:\n" ++
          (availableProfiles profiles).foldl
            (fun acc profileID => acc ++ str "  - " ++ profileID ++ str "\n") [])

/-- `NeedsMigration` (migrations/manager.go lines 26-41): dev builds and
empty config versions never migrate; otherwise migrate iff the config
version compares below the CLI version. -/
def NeedsMigration (cliVersion configVersion : GoString) : Bool :=
  if cliVersion = str "dev" then false
  else if configVersion = [] then false
  else compareVersions configVersion cliVersion < 0

/-- `shouldRunMigration` (migrations/manager.go lines 76-86): an empty
old version always runs; otherwise run iff strictly below the target. -/
def shouldRunMigration (oldVersion targetVersion : GoString) : Bool :=
  if oldVersion = [] then true
  else compareVersions oldVersion targetVersion < 0

/-- `migrateToV060` (migrations/manager.go lines 162-180): backfill the
profile type to `"bedrock"` when unset, saving the changed record; the
second component lists the configs persisted by the step. -/
def migrateToV060step (cfg : Config) : Config × List Config :=
  if cfg.ProfileType ≠ [] then (cfg, [])
  else
    let cfg1 := { cfg with ProfileType := str "bedrock" }
    (cfg1, [cfg1])

/-- `migrateToV050` (migrations/manager.go lines 135-158): default the
heavy model to the main model when unset and the main model nonempty,
saving the changed record. -/
def migrateToV050step (cfg : Config) : Config × List Config :=
  if cfg.HeavyModel ≠ [] then (cfg, [])
  else if cfg.Model = [] then (cfg, [])
  else
    let cfg1 := { cfg with HeavyModel := cfg.Model }
    (cfg1, [cfg1])

/-- `migrateToV040` (migrations/manager.go lines 90-131): resolve each
nonempty, not-yet-full model field to a full profile ID and save the
result; any resolver failure aborts the step before its save. -/
def migrateToV040step (catalog : Except GoString (List (Option GoString))) (cfg : Config) :
    Except GoString Config × List Config :=
  if cfg.Model == [] && cfg.FastModel == [] then (.ok cfg, [])
  else if (cfg.Model == [] || IsFullProfileID cfg.Model) &&
      (cfg.FastModel == [] || IsFullProfileID cfg.FastModel) then (.ok cfg, [])
  else
    match (if !(cfg.Model == []) && !(cfg.Model == [] || IsFullProfileID cfg.Model) then
        (resolveModelToProfileID catalog cfg.CrossRegion cfg.Model).mapError
          (fun e => str "failed to resolve main model: " ++ e)
      else .ok cfg.Model) with
    | .error e => (.error e, [])
    | .ok newModel =>
      match (if !(cfg.FastModel == []) &&
          !(cfg.FastModel == [] || IsFullProfileID cfg.FastModel) then
          (resolveModelToProfileID catalog cfg.CrossRegion cfg.FastModel).mapError
            (fun e => str "failed to resolve fast model: " ++ e)
        else .ok cfg.FastModel) with
      | .error e => (.error e, [])
      | .ok newFastModel =>
        (.ok { cfg with Model := newModel, FastModel := newFastModel },
          [{ cfg with Model := newModel, FastModel := newFastModel }])

/-- The call-site error wrapping of the v0.4.0 step inside
`MigrateProfile` (migrations/manager.go lines 60-64). -/
def migrateToV040wrapped (catalog : Except GoString (List (Option GoString))) (cfg : Config) :
    Except GoString Config × List Config :=
  match migrateToV040step catalog cfg with
  | (.error e, s) => (.error (str "failed to migrate to v0.4.0: " ++ e), s)
  | (.ok c, s) => (.ok c, s)

/-- `MigrateProfile` (migrations/manager.go lines 44-74): dev builds skip
everything; otherwise run v0.6.0 first, then (for non-API profiles)
v0.4.0 and v0.5.0, each gated by `shouldRunMigration` against the old
version; the second component lists every config persisted on the way,
also when the run ends in an error. -/
def migrateProfileRun (cliVersion oldVersion : GoString)
    (catalog : Except GoString (List (Option GoString))) (cfg : Config) :
    Except GoString Config × List Config :=
  if cliVersion = str "dev" then (.ok cfg, [])
  else
    match (if shouldRunMigration oldVersion (str "v0.6.0") then migrateToV060step cfg
           else (cfg, [])) with
    | (cfg1, s1) =>
      if cfg1.ProfileType ≠ str "api" then
        match (if shouldRunMigration oldVersion (str "v0.4.0") then
               migrateToV040wrapped catalog cfg1 else (.ok cfg1, [])) with
        | (.error e, s2) => (.error e, s1 ++ s2)
        | (.ok cfg2, s2) =>
          match (if shouldRunMigration oldVersion (str "v0.5.0") then migrateToV050step cfg2
                 else (cfg2, [])) with
          | (cfg3, s3) => (.ok cfg3, s1 ++ s2 ++ s3)
      else (.ok cfg1, s1)

/-- The migration block of `GetCurrentConfig` (profiles/manager.go lines
555-574): run `MigrateProfile` only when `NeedsMigration` says the config
version is older than the CLI version, then stamp the version (except in
dev mode) and save. -/
def getCurrentConfigMigration (cliVersion : GoString)
    (catalog : Except GoString (List (Option GoString))) (cfg : Config) :
    Except GoString Config × List Config :=
  if NeedsMigration cliVersion cfg.Version then
    match migrateProfileRun cliVersion cfg.Version catalog cfg with
    | (.error e, s) => (.error e, s)
    | (.ok cfg1, s) =>
      if cliVersion ≠ str "dev" then
        let cfg2 := { cfg1 with Version := cliVersion }
        (.ok cfg2, s ++ [cfg2])
      else (.ok cfg1, s)
  else (.ok cfg, [])

/-- `migrateModelFormat` (legacy config migration): prepend the provider
inferred from a fixed model-prefix table when the model name has no dot;
unknown prefixes default to `anthropic`. The Go map iteration order is
immaterial because no two table prefixes can match the same string. -/
def migrateModelFormat (model : GoString) : GoString :=
  if model.contains '.' then model
  else if (str "claude").isPrefixOf model then str "anthropic." ++ model
  else if (str "llama").isPrefixOf model then str "meta." ++ model
  else if (str "titan").isPrefixOf model then str "amazon." ++ model
  else if (str "j2").isPrefixOf model then str "ai21." ++ model
  else if (str "command").isPrefixOf model then str "cohere." ++ model
  else if (str "mistral").isPrefixOf model then str "mistral." ++ model
  else if (str "jamba").isPrefixOf model then str "ai21." ++ model
  else str "anthropic." ++ model

example : migrateModelFormat (str "claude-sonnet-4-5") = str "anthropic.claude-sonnet-4-5" := by
  decide
example : migrateModelFormat (str "anthropic.claude-sonnet-4-5") =
    str "anthropic.claude-sonnet-4-5" := by decide

deriving instance DecidableEq for Except

/-! ## LaunchCoordinator (internal/launcher/launcher.go)

The two goroutines of `Launch` write single-shot results into the
`validationDone` and `cmdDone` channels, and the coordinator consumes
whichever arrives first in one `select`. The race is modelled by a
`SelectArm` parameter naming the branch the `select` took, together with
the value each channel carries; the branch bodies (launcher.go lines
97-145) are modelled as a pure function from these to the list of
process-control actions the coordinator performs and its final result. -/

/-- `ValidateProfileIDs` (bedrock.go lines 361-400): the first requested
profile ID that is not in the catalog's set of non-nil identifiers. -/
def validateProfileIDs (profiles : List (Option GoString)) (profileIDs : List GoString) :
    Option GoString :=
  profileIDs.find? (fun profileID => !((availableProfiles profiles).contains profileID))

/-- A failed validation outcome: either the catalog fetch itself failed,
or some requested profile identifier is not in the catalog. -/
inductive ValErr where
  | catalogUnavailable (msg : GoString)
  | invalidProfile (profileID : GoString)
deriving DecidableEq, Repr

/-- The value the validation goroutine sends on `validationDone`:
`none` on success, the failure otherwise. -/
def runValidation (catalog : Except GoString (List (Option GoString)))
    (profileIDs : List GoString) : Option ValErr :=
  match catalog with
  | .error e => some (.catalogUnavailable (str "failed to list inference profiles: " ++ e))
  | .ok profiles => (validateProfileIDs profiles profileIDs).map .invalidProfile

/-- The value the wait goroutine sends on `cmdDone`: `none` when
`cmd.Wait` returns nil (exit code 0), an exit code for `*exec.ExitError`,
or some other wait error. -/
inductive CmdErr where
  | exitError (code : Int)
  | otherError (msg : GoString)
deriving DecidableEq, Repr

/-- Process-control and bookkeeping actions of the coordinator, in the
order it performs them. -/
inductive LaunchAction where
  | kill
  | waitChild
  | track (exitCode : Int)
deriving DecidableEq, Repr

/-- The coordinator's final outcome: a configuration error from failed
validation, a wait error, re-exiting the host with the child's nonzero
exit code, or a clean return. -/
inductive LaunchResult where
  | configError (e : ValErr)
  | runError (msg : GoString)
  | hostExit (code : Int)
  | done
deriving DecidableEq, Repr

/-- Which channel the `select` statement received from first. -/
inductive SelectArm where
  | validation
  | processExit
deriving DecidableEq, Repr

/-- The exit-code handling shared by both branches (launcher.go lines
107-124 and 128-144): a non-ExitError wait failure returns immediately;
otherwise the session is tracked and the host re-exits with the child's
exit code when it is nonzero. -/
def exitOutcome (cmdRes : Option CmdErr) : List LaunchAction × LaunchResult :=
  match cmdRes with
  | none => ([.track 0], .done)
  | some (.exitError code) => ([.track code], if code ≠ 0 then .hostExit code else .done)
  | some (.otherError m) => ([], .runError (str "claude exited with error: " ++ m))

/-- The `select` of `Launch` (launcher.go lines 97-145). In the
validation arm a failure kills the process, awaits its exit and returns
a configuration error; a success falls through to waiting on `cmdDone`.
In the process-exit arm the child's result alone decides the outcome. -/
def launchSelect (arm : SelectArm) (validationRes : Option ValErr) (cmdRes : Option CmdErr) :
    List LaunchAction × LaunchResult :=
  match arm with
  | .validation =>
    match validationRes with
    | some e => ([.kill, .waitChild], .configError e)
    | none =>
      let p := exitOutcome cmdRes
      (.waitChild :: p.1, p.2)
  | .processExit => exitOutcome cmdRes

example :
    launchSelect .validation (some (.invalidProfile (str "global.bad"))) (some (.exitError 2)) =
      ([.kill, .waitChild], .configError (.invalidProfile (str "global.bad"))) := by decide
example : launchSelect .processExit (some (.invalidProfile (str "global.bad"))) none =
    ([.track 0], .done) := by decide

/-! ## Shared lemmas -/

/-- The skip-nil loop of `findMatchingProfile` equals a first-match scan
over the list of non-nil identifiers. -/
theorem findMatchingProfile_eq_find? (profiles : List (Option GoString))
    (crossRegion model : GoString) :
    findMatchingProfile profiles crossRegion model =
      (availableProfiles profiles).find?
        (fun profileID => (crossRegion ++ '.' :: model).isPrefixOf profileID) := by
  induction profiles with
  | nil => rfl
  | cons p rest ih =>
    cases p with
    | none => exact ih
    | some profileID =>
      have e1 : availableProfiles (some profileID :: rest) =
          profileID :: availableProfiles rest := rfl
      cases h : (crossRegion ++ '.' :: model).isPrefixOf profileID with
      | true =>
        rw [e1, List.find?_cons_of_pos _ h]
        simp only [findMatchingProfile]
        rw [if_pos h]
      | false =>
        rw [e1, List.find?_cons_of_neg _ (by simp [h])]
        simp only [findMatchingProfile]
        rw [if_neg (by simp [h])]
        exact ih

/-- `find?` returns the unique element satisfying the predicate. -/
theorem find?_eq_of_mem_of_unique {α : Type} (p : α → Bool) (l : List α) (a : α)
    (ha : a ∈ l) (hpa : p a = true) (huniq : ∀ x ∈ l, p x = true → x = a) :
    l.find? p = some a := by
  induction l with
  | nil => cases ha
  | cons b bs ih =>
    by_cases hb : p b = true
    · have hba : b = a := huniq b (List.mem_cons_self b bs) hb
      subst hba
      exact List.find?_cons_of_pos _ hb
    · have ha' : a ∈ bs := by
        rcases List.mem_cons.mp ha with h | h
        · exact absurd (h ▸ hpa) hb
        · exact h
      rw [List.find?_cons_of_neg _ hb]
      exact ih ha' (fun x hx hpx => huniq x (List.mem_cons_of_mem _ hx) hpx)

/-- A string that is not a full profile ID passes through
`ExtractFriendlyModelName` unchanged. -/
theorem extractFriendly_of_not_full (x : GoString) (h : IsFullProfileID x = false) :
    ExtractFriendlyModelName x = x := by
  rw [ExtractFriendlyModelName, h]
  simp

/-- `extractLoop` accumulates exactly the tokens before the first
terminator-shaped token. -/
theorem extractLoop_cons (part : GoString) (rest : List GoString) :
    extractLoop (part :: rest) =
      if isVersionTerminator part then [] else part :: extractLoop rest := rfl

theorem extractLoop_eq_takeWhile (l : List GoString) :
    extractLoop l = l.takeWhile (fun t => !isVersionTerminator t) := by
  induction l with
  | nil => rfl
  | cons part rest ih =>
    rw [extractLoop_cons, List.takeWhile_cons]
    cases h : isVersionTerminator part with
    | true => simp [h]
    | false => simp [h, ih]

/-- Comparing the empty version is the same as comparing `"0.0.0"`,
except at the special-cased arguments. -/
theorem compareVersions_empty_eq (v : GoString) (h1 : v ≠ []) (h2 : v ≠ str "dev")
    (h3 : v ≠ str "0.0.0") :
    compareVersions [] v = compareVersions (str "0.0.0") v := by
  have e1 : compareVersions [] v =
      (let w2 := if v = [] ∨ v = str "0" then str "0.0.0" else v
       let parts1 := goSplit (str "0.0.0") '.'
       let parts2 := goSplit w2 '.'
       let maxLen := max parts1.length parts2.length
       cmpParts (padParts parts1 maxLen) (padParts parts2 maxLen)) := by
    rw [compareVersions, if_neg (fun h => h1 h.symm), if_neg (by decide), if_neg h2]
    rfl
  have e2 : compareVersions (str "0.0.0") v =
      (let w2 := if v = [] ∨ v = str "0" then str "0.0.0" else v
       let parts1 := goSplit (str "0.0.0") '.'
       let parts2 := goSplit w2 '.'
       let maxLen := max parts1.length parts2.length
       cmpParts (padParts parts1 maxLen) (padParts parts2 maxLen)) := by
    rw [compareVersions, if_neg (fun h => h3 h.symm), if_neg (by decide), if_neg h2]
    rfl
  rw [e1, e2]

/-! ## Claim theorems -/

/-- C1: `findMatch` returns the first identifier of the catalog (in
catalog order, nil entries skipped) that has `geography ++ "." ++
friendlyModel` as a string prefix, and when no identifier matches it
returns a not-found error carrying the full list of the catalog's
identifiers. -/
theorem c1_findMatch_first_match_or_full_list (profiles : List (Option GoString))
    (crossRegion model : GoString) :
    findMatch profiles crossRegion model =
      match (availableProfiles profiles).find?
          (fun profileID => (crossRegion ++ '.' :: model).isPrefixOf profileID) with
      | some profileID => .ok profileID
      | none => .error ⟨model, crossRegion, availableProfiles profiles⟩ := by
  cases h : (availableProfiles profiles).find?
      (fun profileID => (crossRegion ++ '.' :: model).isPrefixOf profileID) with
  | some profileID => rw [findMatch, findMatchingProfile_eq_find?, h]
  | none => rw [findMatch, findMatchingProfile_eq_find?, h]

/-- C2: round-trip — when the catalog contains a full identifier `id`
with geography `g` and `id` is the unique catalog element carrying the
prefix `g ++ "." ++ toFriendlyName(id)`, resolving the friendly name
back through `findMatch` returns `id`. -/
theorem c2_friendly_name_round_trip (profiles : List (Option GoString)) (g rest id : GoString)
    (hgeo : g = str "us" ∨ g = str "eu" ∨ g = str "global")
    (hid : id = g ++ '.' :: rest)
    (hmem : some id ∈ profiles)
    (honly : ∀ x ∈ availableProfiles profiles,
      ((g ++ '.' :: ExtractFriendlyModelName id).isPrefixOf x = true ↔ x = id)) :
    findMatch profiles g (ExtractFriendlyModelName id) = .ok id := by
  have hmem' : id ∈ availableProfiles profiles := by
    rw [availableProfiles, List.mem_filterMap]
    exact ⟨some id, hmem, rfl⟩
  have hpid : (g ++ '.' :: ExtractFriendlyModelName id).isPrefixOf id = true :=
    (honly id hmem').mpr rfl
  rw [findMatch, findMatchingProfile_eq_find?,
    find?_eq_of_mem_of_unique _ _ id hmem' hpid (fun x hx hpx => (honly x hx).mp hpx)]

/-- C2 witness: a concrete one-element catalog round-trips. -/
theorem c2_friendly_name_round_trip_witness :
    findMatch [some (str "global.anthropic.claude-sonnet-4-5-20250929-v1:0")] (str "global")
      (ExtractFriendlyModelName (str "global.anthropic.claude-sonnet-4-5-20250929-v1:0")) =
      .ok (str "global.anthropic.claude-sonnet-4-5-20250929-v1:0") :=
  c2_friendly_name_round_trip _ (str "global")
    (str "anthropic.claude-sonnet-4-5-20250929-v1:0")
    (str "global.anthropic.claude-sonnet-4-5-20250929-v1:0")
    (Or.inr (Or.inr rfl)) (by decide) (by decide) (by decide)

/-- C3 counterexample: `toFriendlyName` is not idempotent on every
string. When the stripped result's own first segment is again a
geography (here the provider slot holds `us`), a second application
strips once more. -/
theorem c3_counterexample_not_idempotent :
    ExtractFriendlyModelName (ExtractFriendlyModelName (str "global.us.claude-sonnet")) ≠
      ExtractFriendlyModelName (str "global.us.claude-sonnet") := by decide

/-- C3 amended: `toFriendlyName` is idempotent on every string whose
image is a fixed point or is not itself a full profile ID — that is,
idempotence can only fail when the result's first dot-segment is again
one of the geographies. -/
theorem c3_amended_idempotent_on_friendly_results (x : GoString)
    (h : ExtractFriendlyModelName x = x ∨
      IsFullProfileID (ExtractFriendlyModelName x) = false) :
    ExtractFriendlyModelName (ExtractFriendlyModelName x) = ExtractFriendlyModelName x := by
  rcases h with h | h
  · rw [h]
    exact h
  · exact extractFriendly_of_not_full _ h

/-- C3 amended witness: idempotence at a realistic full identifier. -/
theorem c3_amended_idempotent_witness :
    ExtractFriendlyModelName (ExtractFriendlyModelName
        (str "global.anthropic.claude-sonnet-4-5-20250929-v1:0")) =
      ExtractFriendlyModelName (str "global.anthropic.claude-sonnet-4-5-20250929-v1:0") :=
  c3_amended_idempotent_on_friendly_results _ (Or.inr (by decide))

/-- C4 counterexample: the slug scan stops at any token of byte length
8, digits or not. `"instruct"` is 8 non-digit characters, so the claim
as stated expects it to be accumulated (result `"instruct"`), but the
code stops immediately and returns the empty slug. -/
theorem c4_counterexample_eight_char_token :
    extractModelNameFromVersion (str "instruct") = [] ∧
      extractModelNameFromVersion (str "instruct") ≠ str "instruct" ∧
      (str "instruct").all Char.isDigit = false := by decide

/-- C4 amended: `extractModelSlug` splits on `-` and accumulates tokens,
stopping at the first token whose byte length is exactly 8 (whether or
not its characters are digits), or that starts with `v`, or contains
`:`; the result is the accumulated tokens rejoined with `-` (empty when
zero tokens were accumulated). -/
theorem c4_amended_slug_characterization (s : GoString) :
    extractModelNameFromVersion s =
      List.intercalate (str "-")
        ((goSplit s '-').takeWhile (fun t => !isVersionTerminator t)) := by
  rw [extractModelNameFromVersion, extractLoop_eq_takeWhile]

/-- C10: version-comparison normalization — reflexivity, `""`/`"0"`
normalizing to `"0.0.0"`, zero-padding of shorter versions, empty
comparing below every version above `0.0.0`, and the per-component
lexicographic fallback for non-numeric components. -/
theorem c10_compareVersions_normalization :
    (∀ v, compareVersions v v = 0) ∧
    compareVersions [] (str "0") = 0 ∧
    compareVersions [] (str "0.0.0") = 0 ∧
    compareVersions (str "0") (str "0.0.0") = 0 ∧
    compareVersions (str "1.2") (str "1.2.0") = 0 ∧
    (∀ v, compareVersions (str "0.0.0") v < 0 → compareVersions [] v < 0) ∧
    (∀ a b as bs, goAtoi a = none ∨ goAtoi b = none →
      cmpParts (a :: as) (b :: bs) =
        if goLess a b then -1 else if goLess b a then 1 else cmpParts as bs) := by
  refine ⟨?_, by decide, by decide, by decide, by decide, ?_, ?_⟩
  · intro v
    rw [compareVersions, if_pos rfl]
  · intro v h
    by_cases hv : v = []
    · rw [hv] at h
      rw [show compareVersions (str "0.0.0") [] = 0 from by decide] at h
      exact absurd h (by norm_num)
    by_cases hd : v = str "dev"
    · rw [hd]
      decide
    by_cases h3 : v = str "0.0.0"
    · rw [h3] at h
      rw [show compareVersions (str "0.0.0") (str "0.0.0") = 0 from by decide] at h
      exact absurd h (by norm_num)
    · rw [compareVersions_empty_eq v hv hd h3]
      exact h
  · intro a b as bs h
    rcases h with h | h
    · cases hb : goAtoi b <;> simp [cmpParts, h, hb]
    · cases ha : goAtoi a <;> simp [cmpParts, ha, h]

/-- C10 witness: the empty version compares below the released version
`v0.6.1`. -/
theorem c10_compareVersions_witness : compareVersions [] (str "v0.6.1") < 0 :=
  c10_compareVersions_normalization.2.2.2.2.2.1 (str "v0.6.1") (by decide)

/-- C5 counterexample: a record with empty version and populated model
fields is NOT migrated — `NeedsMigration` treats every empty version as
a fresh install, so `GetCurrentConfig` runs no step and the profile-type
backfill (applicable per `shouldRunMigration`) never happens. -/
theorem c5_counterexample_empty_version_populated_models :
    getCurrentConfigMigration (str "v0.6.1") (.ok [])
        { Version := [], ProfileType := [], Profile := str "default",
          Region := str "us-east-1", CrossRegion := str "global", BaseURL := [],
          APIKeyID := [], Model := str "anthropic.claude-sonnet-4-5",
          FastModel := str "anthropic.claude-haiku-4-5", HeavyModel := [] } =
      (.ok { Version := [], ProfileType := [], Profile := str "default",
             Region := str "us-east-1", CrossRegion := str "global", BaseURL := [],
             APIKeyID := [], Model := str "anthropic.claude-sonnet-4-5",
             FastModel := str "anthropic.claude-haiku-4-5", HeavyModel := [] }, []) ∧
    shouldRunMigration [] (str "v0.6.0") = true := by decide

/-- C5 amended: the engine's gate treats every record with empty version
as a fresh install regardless of its model fields — `NeedsMigration`
returns false and the `GetCurrentConfig` migration block changes and
persists nothing; only a direct `MigrateProfile` invocation treats an
empty old version as older than every target via `shouldRunMigration`. -/
theorem c5_amended_empty_version_is_fresh_install (cliVersion : GoString)
    (catalog : Except GoString (List (Option GoString))) (cfg : Config)
    (h : cfg.Version = []) :
    NeedsMigration cliVersion cfg.Version = false ∧
    getCurrentConfigMigration cliVersion catalog cfg = (.ok cfg, []) ∧
    ∀ target, shouldRunMigration cfg.Version target = true := by
  have hn : NeedsMigration cliVersion cfg.Version = false := by
    unfold NeedsMigration
    rw [h]
    by_cases hc : cliVersion = str "dev"
    · rw [if_pos hc]
    · rw [if_neg hc, if_pos rfl]
  refine ⟨hn, ?_, ?_⟩
  · unfold getCurrentConfigMigration
    rw [hn]
    rfl
  · intro target
    unfold shouldRunMigration
    rw [h, if_pos rfl]

/-- C5 amended witness: a fresh-install record (empty version, empty
models) passes through the migration gate untouched. -/
theorem c5_amended_fresh_install_witness :
    getCurrentConfigMigration (str "v0.6.1") (.ok [])
        { Version := [], ProfileType := str "bedrock", Profile := [],
          Region := str "us-east-1", CrossRegion := str "global", BaseURL := [],
          APIKeyID := [], Model := [], FastModel := [], HeavyModel := [] } =
      (.ok { Version := [], ProfileType := str "bedrock", Profile := [],
             Region := str "us-east-1", CrossRegion := str "global", BaseURL := [],
             APIKeyID := [], Model := [], FastModel := [], HeavyModel := [] }, []) :=
  (c5_amended_empty_version_is_fresh_install (str "v0.6.1") (.ok []) _ rfl).2.1

/-- C8: when the coordinator observes a failed validation result while
the child is still running, it kills the process, awaits its actual
exit, and returns a configuration error; an invalid-identifier failure
names a requested identifier that is absent from the catalog, and the
child's own exit result never influences the reported outcome. -/
theorem c8_validation_failure_kills_and_reports (e : ValErr) (cmdRes : Option CmdErr)
    (profiles : List (Option GoString)) (profileIDs : List GoString) (badID : GoString) :
    launchSelect .validation (some e) cmdRes = ([.kill, .waitChild], .configError e) ∧
    (runValidation (.ok profiles) profileIDs = some (.invalidProfile badID) →
      badID ∈ profileIDs ∧ badID ∉ availableProfiles profiles) := by
  constructor
  · rfl
  · intro h
    unfold runValidation at h
    rcases Option.map_eq_some'.mp h with ⟨a, ha, hinj⟩
    have hab : a = badID := by injection hinj
    rw [hab] at ha
    unfold validateProfileIDs at ha
    have hmem := List.mem_of_find?_eq_some ha
    have hp := List.find?_some ha
    simp only [Bool.not_eq_true'] at hp
    refine ⟨hmem, ?_⟩
    intro hin
    have hc : (availableProfiles profiles).contains badID = true :=
      List.elem_eq_true_of_mem hin
    rw [hp] at hc
    cases hc

/-- C8 witness: a concrete invalid identifier with the child still
running (it would later exit with code 7) yields kill, wait, and a
configuration error naming the identifier. -/
theorem c8_validation_failure_witness :
    launchSelect .validation (some (.invalidProfile (str "global.bad"))) (some (.exitError 7)) =
      ([.kill, .waitChild], .configError (.invalidProfile (str "global.bad"))) ∧
    str "global.bad" ∈ [str "global.bad"] ∧
    str "global.bad" ∉
      availableProfiles [some (str "global.anthropic.claude-sonnet-4-5-20250929-v1:0")] :=
  ⟨(c8_validation_failure_kills_and_reports (.invalidProfile (str "global.bad"))
      (some (.exitError 7)) [some (str "global.anthropic.claude-sonnet-4-5-20250929-v1:0")]
      [str "global.bad"] (str "global.bad")).1,
    (c8_validation_failure_kills_and_reports (.invalidProfile (str "global.bad"))
      (some (.exitError 7)) [some (str "global.anthropic.claude-sonnet-4-5-20250929-v1:0")]
      [str "global.bad"] (str "global.bad")).2 (by decide)⟩

/-- C9: once the process-exit branch of the race is taken, the
validation result is discarded (the outcome does not depend on it), no
kill is ever performed, and a clean exit (code 0) is reported as
success. -/
theorem c9_process_exit_branch_discards_validation (v1 v2 : Option ValErr)
    (cmdRes : Option CmdErr) :
    launchSelect .processExit v1 cmdRes = launchSelect .processExit v2 cmdRes ∧
    LaunchAction.kill ∉ (launchSelect .processExit v1 cmdRes).1 ∧
    launchSelect .processExit v1 none = ([.track 0], .done) ∧
    launchSelect .processExit v1 (some (.exitError 0)) = ([.track 0], .done) := by
  refine ⟨rfl, ?_, rfl, rfl⟩
  cases cmdRes with
  | none => simp [launchSelect, exitOutcome]
  | some e =>
    cases e with
    | exitError code => simp [launchSelect, exitOutcome]
    | otherError m => simp [launchSelect, exitOutcome]

/-! ## Migration-engine lemmas -/

/-- A string prefixed by `geography ++ "."` (for one of the three
geographies) is a full profile ID. -/
theorem isFullProfileID_of_geo_prefixed (g r id : GoString)
    (hgeo : g = str "us" ∨ g = str "eu" ∨ g = str "global")
    (hpre : (g ++ '.' :: r).isPrefixOf id = true) :
    IsFullProfileID id = true := by
  have hp : (g ++ '.' :: r) <+: id := List.isPrefixOf_iff_prefix.mp hpre
  rcases hp with ⟨t, ht⟩
  rcases hgeo with h | h | h <;> subst h <;> rw [← ht] <;> rfl

/-- The identifier found by `findMatchingProfile` carries the query
prefix. -/
theorem findMatchingProfile_some_isPrefixOf (profiles : List (Option GoString))
    (g m id : GoString) (h : findMatchingProfile profiles g m = some id) :
    (g ++ '.' :: m).isPrefixOf id = true := by
  induction profiles with
  | nil => cases h
  | cons p rest ih =>
    cases p with
    | none => exact ih h
    | some pid =>
      by_cases hp : ((g ++ '.' :: m).isPrefixOf pid) = true
      · have hsome : some pid = some id := by
          rw [← h]
          simp only [findMatchingProfile]
          rw [if_pos hp]
        injection hsome with h2
        rw [← h2]
        exact hp
      · apply ih
        rw [← h]
        simp only [findMatchingProfile]
        rw [if_neg hp]

/-- `mapError` cannot turn an error into a success. -/
theorem mapError_eq_ok {ε ε' α : Type} (f : ε → ε') (x : Except ε α) (a : α)
    (h : x.mapError f = .ok a) : x = .ok a := by
  cases x with
  | error e => exact absurd h (by simp [Except.mapError])
  | ok b => simpa [Except.mapError] using h

/-- With a valid geography, every identifier that
`ResolveModelToProfileID` returns successfully is a full profile ID. -/
theorem resolveModelToProfileID_ok_full (catalog : Except GoString (List (Option GoString)))
    (g m id : GoString)
    (hgeo : g = str "us" ∨ g = str "eu" ∨ g = str "global")
    (h : resolveModelToProfileID catalog g m = .ok id) :
    IsFullProfileID id = true := by
  unfold resolveModelToProfileID at h
  by_cases hm : IsFullProfileID m = true
  · rw [if_pos hm] at h
    injection h with h2
    rw [← h2]
    exact hm
  · rw [if_neg hm] at h
    cases catalog with
    | error e => cases h
    | ok profiles =>
      dsimp only at h
      cases hf : findMatchingProfile profiles g m with
      | none => rw [hf] at h; cases h
      | some pid =>
        rw [hf] at h
        injection h with h2
        rw [← h2]
        exact isFullProfileID_of_geo_prefixed g m pid hgeo
          (findMatchingProfile_some_isPrefixOf profiles g m pid hf)

/-- The v0.6.0 step is a no-op when the profile type is already set. -/
theorem migrateToV060step_noop (c : Config) (h : c.ProfileType ≠ []) :
    migrateToV060step c = (c, []) := by
  unfold migrateToV060step
  rw [if_pos h]

/-- After the v0.6.0 step the profile type is set, the other fields are
unchanged, and the result is the input or the input with profile type
`"bedrock"`. -/
theorem migrateToV060step_post (c : Config) :
    (migrateToV060step c).1.ProfileType ≠ [] ∧
    (migrateToV060step c).1.Model = c.Model ∧
    (migrateToV060step c).1.FastModel = c.FastModel ∧
    (migrateToV060step c).1.HeavyModel = c.HeavyModel ∧
    (migrateToV060step c).1.CrossRegion = c.CrossRegion := by
  unfold migrateToV060step
  by_cases h : c.ProfileType ≠ []
  · rw [if_pos h]
    exact ⟨h, rfl, rfl, rfl, rfl⟩
  · rw [if_neg h]
    exact ⟨(by decide : str "bedrock" ≠ []), rfl, rfl, rfl, rfl⟩

/-- The v0.6.0 step saves nothing, or saves exactly the input with the
profile type backfilled to `"bedrock"`. -/
theorem migrateToV060step_saves (c : Config) :
    (migrateToV060step c).2 = [] ∨
    ((migrateToV060step c).1 = { c with ProfileType := str "bedrock" } ∧
      (migrateToV060step c).2 = [{ c with ProfileType := str "bedrock" }]) := by
  unfold migrateToV060step
  by_cases h : c.ProfileType ≠ []
  · rw [if_pos h]
    exact Or.inl rfl
  · rw [if_neg h]
    exact Or.inr ⟨rfl, rfl⟩

/-- The v0.5.0 step is a no-op when the heavy model is set or the main
model is empty. -/
theorem migrateToV050step_noop (c : Config) (h : c.HeavyModel ≠ [] ∨ c.Model = []) :
    migrateToV050step c = (c, []) := by
  unfold migrateToV050step
  rcases h with h | h
  · rw [if_pos h]
  · by_cases hh : c.HeavyModel ≠ []
    · rw [if_pos hh]
    · rw [if_neg hh, if_pos h]

/-- After the v0.5.0 step, either the heavy model is set or the main
model is empty, and all other fields are unchanged. -/
theorem migrateToV050step_post (c : Config) :
    ((migrateToV050step c).1.HeavyModel ≠ [] ∨ (migrateToV050step c).1.Model = []) ∧
    (migrateToV050step c).1.Model = c.Model ∧
    (migrateToV050step c).1.FastModel = c.FastModel ∧
    (migrateToV050step c).1.ProfileType = c.ProfileType ∧
    (migrateToV050step c).1.CrossRegion = c.CrossRegion := by
  unfold migrateToV050step
  by_cases h1 : c.HeavyModel ≠ []
  · rw [if_pos h1]
    exact ⟨Or.inl h1, rfl, rfl, rfl, rfl⟩
  · by_cases h2 : c.Model = []
    · rw [if_neg h1, if_pos h2]
      exact ⟨Or.inr h2, rfl, rfl, rfl, rfl⟩
    · rw [if_neg h1, if_neg h2]
      exact ⟨Or.inl h2, rfl, rfl, rfl, rfl⟩

/-- The v0.4.0 step is a no-op when both model fields are empty or
already full profile IDs. -/
theorem migrateToV040step_noop (catalog : Except GoString (List (Option GoString))) (c : Config)
    (hm : c.Model = [] ∨ IsFullProfileID c.Model = true)
    (hf : c.FastModel = [] ∨ IsFullProfileID c.FastModel = true) :
    migrateToV040step catalog c = (.ok c, []) := by
  have hcond : ((c.Model == [] || IsFullProfileID c.Model) &&
      (c.FastModel == [] || IsFullProfileID c.FastModel)) = true := by
    simp only [Bool.and_eq_true, Bool.or_eq_true, beq_iff_eq]
    exact ⟨hm, hf⟩
  unfold migrateToV040step
  by_cases h0 : (c.Model == [] && c.FastModel == []) = true
  · rw [if_pos h0]
  · rw [if_neg h0, if_pos hcond]

/-- The v0.4.0 step either changes nothing, or succeeds saving exactly
its one result, or fails saving nothing. -/
theorem migrateToV040step_shape (catalog : Except GoString (List (Option GoString)))
    (c : Config) :
    migrateToV040step catalog c = (.ok c, []) ∨
    (∃ c2, migrateToV040step catalog c = (.ok c2, [c2])) ∨
    (∃ e, migrateToV040step catalog c = (.error e, [])) := by
  unfold migrateToV040step
  split
  · exact Or.inl rfl
  · split
    · exact Or.inl rfl
    · split
      · exact Or.inr (Or.inr ⟨_, rfl⟩)
      · split
        · exact Or.inr (Or.inr ⟨_, rfl⟩)
        · exact Or.inr (Or.inl ⟨_, rfl⟩)

/-- Unfolding the guard of a resolution branch: when the guard
`!a && !(a || b)` is false, `a` or `b` holds. -/
theorem resolve_guard_false_cases (a b : Bool) (h : ¬((!a && !(a || b)) = true)) :
    a = true ∨ b = true := by
  rcases Bool.eq_false_or_eq_true a with hA | hA
  · exact Or.inl hA
  · rcases Bool.eq_false_or_eq_true b with hB | hB
    · exact Or.inr hB
    · exact absurd (by rw [hA, hB]; rfl) h

/-- A successful v0.4.0 step (with a valid geography) leaves both model
fields empty or full profile IDs and touches no other field. -/
theorem migrateToV040step_ok_post (catalog : Except GoString (List (Option GoString)))
    (c c2 : Config) (s : List Config)
    (hgeo : c.CrossRegion = str "us" ∨ c.CrossRegion = str "eu" ∨
      c.CrossRegion = str "global")
    (h : migrateToV040step catalog c = (.ok c2, s)) :
    (c2.Model = [] ∨ IsFullProfileID c2.Model = true) ∧
    (c2.FastModel = [] ∨ IsFullProfileID c2.FastModel = true) ∧
    c2.ProfileType = c.ProfileType ∧ c2.CrossRegion = c.CrossRegion ∧
    c2.HeavyModel = c.HeavyModel := by
  unfold migrateToV040step at h
  split at h
  · rename_i hc
    injection h with h1 h2
    injection h1 with h1
    subst h1
    simp only [Bool.and_eq_true, beq_iff_eq] at hc
    exact ⟨Or.inl hc.1, Or.inl hc.2, rfl, rfl, rfl⟩
  · split at h
    · rename_i hc
      injection h with h1 h2
      injection h1 with h1
      subst h1
      simp only [Bool.and_eq_true, Bool.or_eq_true, beq_iff_eq] at hc
      exact ⟨hc.1, hc.2, rfl, rfl, rfl⟩
    · split at h
      · exact absurd (congrArg Prod.fst h) (by simp)
      · split at h
        · exact absurd (congrArg Prod.fst h) (by simp)
        · rename_i sc1 newModel heqM sc2 newFastModel heqF
          injection h with h1 h2
          injection h1 with h1
          subst h1
          refine ⟨?_, ?_, rfl, rfl, rfl⟩
          · show newModel = [] ∨ IsFullProfileID newModel = true
            split at heqM
            · have hok := mapError_eq_ok _ _ _ heqM
              exact Or.inr (resolveModelToProfileID_ok_full catalog c.CrossRegion c.Model
                newModel hgeo hok)
            · rename_i hcond
              injection heqM with hM
              rw [← hM]
              rcases resolve_guard_false_cases _ _ hcond with h' | h'
              · exact Or.inl (by simpa using h')
              · exact Or.inr h'
          · show newFastModel = [] ∨ IsFullProfileID newFastModel = true
            split at heqF
            · have hok := mapError_eq_ok _ _ _ heqF
              exact Or.inr (resolveModelToProfileID_ok_full catalog c.CrossRegion c.FastModel
                newFastModel hgeo hok)
            · rename_i hcond
              injection heqF with hF
              rw [← hF]
              rcases resolve_guard_false_cases _ _ hcond with h' | h'
              · exact Or.inl (by simpa using h')
              · exact Or.inr h'

/-- The wrapped v0.4.0 step succeeds exactly when the step succeeds. -/
theorem migrateToV040wrapped_ok (catalog : Except GoString (List (Option GoString)))
    (c c2 : Config) (s : List Config)
    (h : migrateToV040wrapped catalog c = (.ok c2, s)) :
    migrateToV040step catalog c = (.ok c2, s) := by
  unfold migrateToV040wrapped at h
  split at h
  · exact absurd (congrArg Prod.fst h) (by simp)
  · rename_i c' s' heq
    rw [heq]
    exact h

/-- The wrapped v0.4.0 step is a no-op under the no-op conditions. -/
theorem migrateToV040wrapped_noop (catalog : Except GoString (List (Option GoString)))
    (c : Config)
    (hm : c.Model = [] ∨ IsFullProfileID c.Model = true)
    (hf : c.FastModel = [] ∨ IsFullProfileID c.FastModel = true) :
    migrateToV040wrapped catalog c = (.ok c, []) := by
  unfold migrateToV040wrapped
  rw [migrateToV040step_noop catalog c hm hf]

/-- Shape of the wrapped v0.4.0 step: no-op, one save, or failure with
no save. -/
theorem migrateToV040wrapped_shape (catalog : Except GoString (List (Option GoString)))
    (c : Config) :
    migrateToV040wrapped catalog c = (.ok c, []) ∨
    (∃ c2, migrateToV040wrapped catalog c = (.ok c2, [c2])) ∨
    (∃ e, migrateToV040wrapped catalog c = (.error e, [])) := by
  unfold migrateToV040wrapped
  rcases migrateToV040step_shape catalog c with h | ⟨c2, h⟩ | ⟨e, h⟩ <;> rw [h]
  · exact Or.inl rfl
  · exact Or.inr (Or.inl ⟨c2, rfl⟩)
  · exact Or.inr (Or.inr ⟨_, rfl⟩)

/-- `migrateModelFormat` always yields a dotted name. -/
theorem migrateModelFormat_contains_dot (m : GoString) :
    (migrateModelFormat m).contains '.' = true := by
  unfold migrateModelFormat
  by_cases h : m.contains '.' = true
  · rw [if_pos h]
    exact h
  · rw [if_neg h]
    repeat' split
    all_goals exact List.elem_eq_true_of_mem (List.mem_append_left _ (by decide))

/-- The legacy prefix-prepending migration is idempotent. -/
theorem migrateModelFormat_idem (m : GoString) :
    migrateModelFormat (migrateModelFormat m) = migrateModelFormat m := by
  have h := migrateModelFormat_contains_dot m
  generalize hy : migrateModelFormat m = y at h ⊢
  unfold migrateModelFormat
  rw [if_pos h]

/-- When every applicable step's precondition is already satisfied,
`MigrateProfile` changes nothing and saves nothing. -/
theorem migrateProfileRun_noop (cliVersion oldVersion : GoString)
    (catalog : Except GoString (List (Option GoString))) (c : Config)
    (hdev : cliVersion ≠ str "dev")
    (h6 : shouldRunMigration oldVersion (str "v0.6.0") = true → c.ProfileType ≠ [])
    (h4 : shouldRunMigration oldVersion (str "v0.4.0") = true → c.ProfileType ≠ str "api" →
      (c.Model = [] ∨ IsFullProfileID c.Model = true) ∧
      (c.FastModel = [] ∨ IsFullProfileID c.FastModel = true))
    (h5 : shouldRunMigration oldVersion (str "v0.5.0") = true → c.ProfileType ≠ str "api" →
      c.HeavyModel ≠ [] ∨ c.Model = []) :
    migrateProfileRun cliVersion oldVersion catalog c = (.ok c, []) := by
  unfold migrateProfileRun
  rw [if_neg hdev]
  have e1 : (if shouldRunMigration oldVersion (str "v0.6.0") then migrateToV060step c
      else (c, [])) = (c, []) := by
    cases hd : shouldRunMigration oldVersion (str "v0.6.0") with
    | false => rw [if_neg (by simp [hd])]
    | true =>
      rw [if_pos rfl]
      exact migrateToV060step_noop c (h6 hd)
  rw [e1]
  dsimp only
  by_cases hapi : c.ProfileType ≠ str "api"
  case neg =>
    rw [if_neg hapi]
  case pos =>
    rw [if_pos hapi]
    have e2 : (if shouldRunMigration oldVersion (str "v0.4.0") then
        migrateToV040wrapped catalog c else (.ok c, [])) = (.ok c, []) := by
      cases hd : shouldRunMigration oldVersion (str "v0.4.0") with
      | false => rw [if_neg (by simp [hd])]
      | true =>
        rw [if_pos rfl]
        exact migrateToV040wrapped_noop catalog c (h4 hd hapi).1 (h4 hd hapi).2
    rw [e2]
    dsimp only
    have e3 : (if shouldRunMigration oldVersion (str "v0.5.0") then migrateToV050step c
        else (c, [])) = (c, []) := by
      cases hd : shouldRunMigration oldVersion (str "v0.5.0") with
      | false => rw [if_neg (by simp [hd])]
      | true =>
        rw [if_pos rfl]
        exact migrateToV050step_noop c (h5 hd hapi)
    rw [e3]
    rfl

/-- C6 counterexample: the v0.6.0 step saves its change before the
v0.4.0 step runs, so when the v0.4.0 resolver fails (network down) the
persisted config is NOT the pre-migration copy: the profile-type
backfill has already been persisted. -/
theorem c6_counterexample_partial_persistence :
    migrateProfileRun (str "v0.6.1") (str "0.3.0") (.error (str "network down"))
        { Version := str "0.3.0", ProfileType := [], Profile := str "default",
          Region := str "us-east-1", CrossRegion := str "global", BaseURL := [],
          APIKeyID := [], Model := str "anthropic.claude-sonnet-4-5", FastModel := [],
          HeavyModel := [] } =
      (.error (str "failed to migrate to v0.4.0: failed to resolve main model: failed to list inference profiles: network down"),
        [{ Version := str "0.3.0", ProfileType := str "bedrock", Profile := str "default",
           Region := str "us-east-1", CrossRegion := str "global", BaseURL := [],
           APIKeyID := [], Model := str "anthropic.claude-sonnet-4-5", FastModel := [],
           HeavyModel := [] }]) ∧
    ({ Version := str "0.3.0", ProfileType := str "bedrock", Profile := str "default",
       Region := str "us-east-1", CrossRegion := str "global", BaseURL := [],
       APIKeyID := [], Model := str "anthropic.claude-sonnet-4-5", FastModel := [],
       HeavyModel := [] } : Config) ≠
      { Version := str "0.3.0", ProfileType := [], Profile := str "default",
        Region := str "us-east-1", CrossRegion := str "global", BaseURL := [],
        APIKeyID := [], Model := str "anthropic.claude-sonnet-4-5", FastModel := [],
        HeavyModel := [] } := by decide

/-- C6 amended: when a resolver dependency fails, `MigrateProfile`
returns an error and nothing from the failing step has been saved; the
only state that may already have been persisted by the failed run is the
completed v0.6.0 step's profile-type backfill (the pre-migration record
with `ProfileType` set to `"bedrock"`). -/
theorem c6_amended_failed_run_persists_only_profile_type (cliVersion oldVersion : GoString)
    (catalog : Except GoString (List (Option GoString))) (cfg : Config) (e : GoString)
    (herr : (migrateProfileRun cliVersion oldVersion catalog cfg).1 = .error e) :
    ∀ c ∈ (migrateProfileRun cliVersion oldVersion catalog cfg).2,
      c = { cfg with ProfileType := str "bedrock" } := by
  intro c hc
  unfold migrateProfileRun at herr hc
  by_cases hdev : cliVersion = str "dev"
  · rw [if_pos hdev] at herr
    exact absurd herr (by simp)
  rw [if_neg hdev] at herr hc
  rcases h1 : (if shouldRunMigration oldVersion (str "v0.6.0") then migrateToV060step cfg
      else (cfg, [])) with ⟨cfg1, s1⟩
  rw [h1] at herr hc
  dsimp only at herr hc
  by_cases hapi : cfg1.ProfileType ≠ str "api"
  case neg =>
    rw [if_neg hapi] at herr hc
    exact absurd herr (by simp)
  case pos =>
    rw [if_pos hapi] at herr hc
    rcases h2 : (if shouldRunMigration oldVersion (str "v0.4.0") then
        migrateToV040wrapped catalog cfg1 else (.ok cfg1, [])) with ⟨r2, s2⟩
    rw [h2] at herr hc
    cases r2 with
    | ok cfg2 =>
      dsimp only at herr hc
      rcases h3 : (if shouldRunMigration oldVersion (str "v0.5.0") then migrateToV050step cfg2
          else (cfg2, [])) with ⟨cfg3, s3⟩
      rw [h3] at herr
      dsimp only at herr
      exact absurd herr (by simp)
    | error e2 =>
      dsimp only at herr hc
      have hs2 : s2 = [] := by
        cases hd : shouldRunMigration oldVersion (str "v0.4.0") with
        | false =>
          rw [if_neg (by simp [hd])] at h2
          exact absurd (congrArg Prod.fst h2) (by simp)
        | true =>
          rw [if_pos hd] at h2
          rcases migrateToV040wrapped_shape catalog cfg1 with hsh | ⟨c2', hsh⟩ | ⟨e', hsh⟩ <;>
            rw [hsh] at h2
          · exact absurd (congrArg Prod.fst h2) (by simp)
          · exact absurd (congrArg Prod.fst h2) (by simp)
          · exact (congrArg Prod.snd h2).symm
      rw [hs2, List.append_nil] at hc
      cases hd6 : shouldRunMigration oldVersion (str "v0.6.0") with
      | false =>
        rw [if_neg (by simp [hd6])] at h1
        have hs1 : s1 = [] := (congrArg Prod.snd h1).symm
        rw [hs1] at hc
        cases hc
      | true =>
        rw [if_pos hd6] at h1
        rcases migrateToV060step_saves cfg with hs | ⟨hfst, hs⟩
        · rw [h1] at hs
          dsimp only at hs
          rw [hs] at hc
          cases hc
        · rw [h1] at hs
          dsimp only at hs
          rw [hs] at hc
          exact List.mem_singleton.mp hc

/-- C6 amended witness: at the concrete failed run, the one persisted
config is exactly the pre-migration record with the profile-type
backfill applied. -/
theorem c6_amended_witness :
    ({ Version := str "0.3.0", ProfileType := str "bedrock", Profile := str "default",
       Region := str "us-east-1", CrossRegion := str "global", BaseURL := [],
       APIKeyID := [], Model := str "anthropic.claude-sonnet-4-5", FastModel := [],
       HeavyModel := [] } : Config) =
      { ({ Version := str "0.3.0", ProfileType := [], Profile := str "default",
           Region := str "us-east-1", CrossRegion := str "global", BaseURL := [],
           APIKeyID := [], Model := str "anthropic.claude-sonnet-4-5", FastModel := [],
           HeavyModel := [] } : Config) with ProfileType := str "bedrock" } :=
  c6_amended_failed_run_persists_only_profile_type (str "v0.6.1") (str "0.3.0")
    (.error (str "network down"))
    { Version := str "0.3.0", ProfileType := [], Profile := str "default",
      Region := str "us-east-1", CrossRegion := str "global", BaseURL := [],
      APIKeyID := [], Model := str "anthropic.claude-sonnet-4-5", FastModel := [],
      HeavyModel := [] }
    (str "failed to migrate to v0.4.0: failed to resolve main model: failed to list inference profiles: network down")
    (by decide)
    { Version := str "0.3.0", ProfileType := str "bedrock", Profile := str "default",
      Region := str "us-east-1", CrossRegion := str "global", BaseURL := [],
      APIKeyID := [], Model := str "anthropic.claude-sonnet-4-5", FastModel := [],
      HeavyModel := [] }
    (by decide)

/-- C7 counterexample: with a cross-region outside the geography set,
the resolver's result is not a full profile ID, so a second application
of the migration sequence re-resolves it and fails where the first
succeeded — the sequence is not idempotent for every record and
deterministic resolver. -/
theorem c7_counterexample_second_run_differs :
    migrateProfileRun (str "v0.6.1") (str "0.3.0") (.ok [some (str "foo.m-x")])
        { Version := str "0.3.0", ProfileType := str "bedrock", Profile := str "p",
          Region := str "r", CrossRegion := str "foo", BaseURL := [],
          APIKeyID := [], Model := str "m", FastModel := [], HeavyModel := [] } =
      (.ok { Version := str "0.3.0", ProfileType := str "bedrock", Profile := str "p",
             Region := str "r", CrossRegion := str "foo", BaseURL := [],
             APIKeyID := [], Model := str "foo.m-x", FastModel := [],
             HeavyModel := str "foo.m-x" },
        [{ Version := str "0.3.0", ProfileType := str "bedrock", Profile := str "p",
           Region := str "r", CrossRegion := str "foo", BaseURL := [],
           APIKeyID := [], Model := str "foo.m-x", FastModel := [], HeavyModel := [] },
         { Version := str "0.3.0", ProfileType := str "bedrock", Profile := str "p",
           Region := str "r", CrossRegion := str "foo", BaseURL := [],
           APIKeyID := [], Model := str "foo.m-x", FastModel := [],
           HeavyModel := str "foo.m-x" }]) ∧
    (migrateProfileRun (str "v0.6.1") (str "0.3.0") (.ok [some (str "foo.m-x")])
        { Version := str "0.3.0", ProfileType := str "bedrock", Profile := str "p",
          Region := str "r", CrossRegion := str "foo", BaseURL := [],
          APIKeyID := [], Model := str "foo.m-x", FastModel := [],
          HeavyModel := str "foo.m-x" }).1 ≠
      .ok { Version := str "0.3.0", ProfileType := str "bedrock", Profile := str "p",
            Region := str "r", CrossRegion := str "foo", BaseURL := [],
            APIKeyID := [], Model := str "foo.m-x", FastModel := [],
            HeavyModel := str "foo.m-x" } := by decide

/-- C7 amended: for every record whose cross-region is one of the three
geographies and every deterministic resolver (a fixed catalog), the
migration sequence is idempotent — a second application of
`MigrateProfile` to a successful result changes nothing and persists
nothing; and the legacy provider-prefix normalization never prepends a
prefix twice. -/
theorem c7_amended_migration_idempotent (cliVersion oldVersion : GoString)
    (catalog : Except GoString (List (Option GoString))) (cfg cfgFin : Config)
    (sFin : List Config)
    (hgeo : cfg.CrossRegion = str "us" ∨ cfg.CrossRegion = str "eu" ∨
      cfg.CrossRegion = str "global")
    (hrun : migrateProfileRun cliVersion oldVersion catalog cfg = (.ok cfgFin, sFin)) :
    migrateProfileRun cliVersion oldVersion catalog cfgFin = (.ok cfgFin, []) ∧
    (∀ m, migrateModelFormat (migrateModelFormat m) = migrateModelFormat m) := by
  refine ⟨?_, fun m => migrateModelFormat_idem m⟩
  by_cases hdev : cliVersion = str "dev"
  · unfold migrateProfileRun at hrun ⊢
    rw [if_pos hdev] at hrun ⊢
  · unfold migrateProfileRun at hrun
    rw [if_neg hdev] at hrun
    rcases h1 : (if shouldRunMigration oldVersion (str "v0.6.0") then migrateToV060step cfg
        else (cfg, [])) with ⟨cfg1, s1⟩
    rw [h1] at hrun
    dsimp only at hrun
    have hPT6 : shouldRunMigration oldVersion (str "v0.6.0") = true →
        cfg1.ProfileType ≠ [] := by
      intro hd
      rw [if_pos hd] at h1
      have hp := (migrateToV060step_post cfg).1
      rw [h1] at hp
      exact hp
    have hgeo1 : cfg1.CrossRegion = str "us" ∨ cfg1.CrossRegion = str "eu" ∨
        cfg1.CrossRegion = str "global" := by
      cases hd : shouldRunMigration oldVersion (str "v0.6.0") with
      | false =>
        rw [if_neg (by simp [hd])] at h1
        have hp : cfg = cfg1 := congrArg Prod.fst h1
        rw [← hp]
        exact hgeo
      | true =>
        rw [if_pos hd] at h1
        have hp := (migrateToV060step_post cfg).2.2.2.2
        rw [h1] at hp
        rw [hp]
        exact hgeo
    by_cases hapi : cfg1.ProfileType ≠ str "api"
    case neg =>
      rw [if_neg hapi] at hrun
      injection hrun with hr1 hr2
      injection hr1 with hr1
      subst hr1
      exact migrateProfileRun_noop cliVersion oldVersion catalog cfg1 hdev hPT6
        (fun _ hne => absurd hne hapi) (fun _ hne => absurd hne hapi)
    case pos =>
      rw [if_pos hapi] at hrun
      rcases h2 : (if shouldRunMigration oldVersion (str "v0.4.0") then
          migrateToV040wrapped catalog cfg1 else (.ok cfg1, [])) with ⟨r2, s2⟩
      rw [h2] at hrun
      cases r2 with
      | error e2 =>
        dsimp only at hrun
        exact absurd (congrArg Prod.fst hrun) (by simp)
      | ok cfg2 =>
        dsimp only at hrun
        rcases h3 : (if shouldRunMigration oldVersion (str "v0.5.0") then
            migrateToV050step cfg2 else (cfg2, [])) with ⟨cfg3, s3⟩
        rw [h3] at hrun
        dsimp only at hrun
        injection hrun with hr1 hr2
        injection hr1 with hr1
        subst hr1
        have hm2 : shouldRunMigration oldVersion (str "v0.4.0") = true →
            (cfg2.Model = [] ∨ IsFullProfileID cfg2.Model = true) ∧
            (cfg2.FastModel = [] ∨ IsFullProfileID cfg2.FastModel = true) := by
          intro hd
          rw [if_pos hd] at h2
          have hp := migrateToV040step_ok_post catalog cfg1 cfg2 s2 hgeo1
            (migrateToV040wrapped_ok catalog cfg1 cfg2 s2 h2)
          exact ⟨hp.1, hp.2.1⟩
        have hp2PT : cfg2.ProfileType = cfg1.ProfileType := by
          cases hd : shouldRunMigration oldVersion (str "v0.4.0") with
          | false =>
            rw [if_neg (by simp [hd])] at h2
            have hp : (Except.ok cfg1 : Except GoString Config) = .ok cfg2 :=
              congrArg Prod.fst h2
            injection hp with hp
            rw [← hp]
          | true =>
            rw [if_pos hd] at h2
            exact (migrateToV040step_ok_post catalog cfg1 cfg2 s2 hgeo1
              (migrateToV040wrapped_ok catalog cfg1 cfg2 s2 h2)).2.2.1
        have hp3 : cfg3.ProfileType = cfg2.ProfileType ∧ cfg3.Model = cfg2.Model ∧
            cfg3.FastModel = cfg2.FastModel := by
          cases hd : shouldRunMigration oldVersion (str "v0.5.0") with
          | false =>
            rw [if_neg (by simp [hd])] at h3
            have hp : cfg2 = cfg3 := congrArg Prod.fst h3
            rw [← hp]
            exact ⟨rfl, rfl, rfl⟩
          | true =>
            rw [if_pos hd] at h3
            have hp := migrateToV050step_post cfg2
            rw [h3] at hp
            exact ⟨hp.2.2.2.1, hp.2.1, hp.2.2.1⟩
        have h53 : shouldRunMigration oldVersion (str "v0.5.0") = true →
            cfg3.HeavyModel ≠ [] ∨ cfg3.Model = [] := by
          intro hd
          rw [if_pos hd] at h3
          have hp := (migrateToV050step_post cfg2).1
          rw [h3] at hp
          exact hp
        refine migrateProfileRun_noop cliVersion oldVersion catalog cfg3 hdev ?_ ?_ ?_
        · intro hd
          rw [hp3.1, hp2PT]
          exact hPT6 hd
        · intro hd _
          rw [hp3.2.1, hp3.2.2]
          exact hm2 hd
        · intro hd _
          exact h53 hd

/-- C7 amended witness: for a valid-geography record, re-running the
migration sequence on the first run's result changes and persists
nothing. -/
theorem c7_amended_idempotent_witness :
    migrateProfileRun (str "v0.6.1") (str "0.3.0")
        (.ok [some (str "global.anthropic.claude-sonnet-4-5-20250929-v1:0")])
        { Version := str "0.3.0", ProfileType := str "bedrock", Profile := str "p",
          Region := str "r", CrossRegion := str "global", BaseURL := [],
          APIKeyID := [],
          Model := str "global.anthropic.claude-sonnet-4-5-20250929-v1:0",
          FastModel := [],
          HeavyModel := str "global.anthropic.claude-sonnet-4-5-20250929-v1:0" } =
      (.ok { Version := str "0.3.0", ProfileType := str "bedrock", Profile := str "p",
             Region := str "r", CrossRegion := str "global", BaseURL := [],
             APIKeyID := [],
             Model := str "global.anthropic.claude-sonnet-4-5-20250929-v1:0",
             FastModel := [],
             HeavyModel := str "global.anthropic.claude-sonnet-4-5-20250929-v1:0" }, []) :=
  (c7_amended_migration_idempotent (str "v0.6.1") (str "0.3.0")
    (.ok [some (str "global.anthropic.claude-sonnet-4-5-20250929-v1:0")])
    { Version := str "0.3.0", ProfileType := str "bedrock", Profile := str "p",
      Region := str "r", CrossRegion := str "global", BaseURL := [],
      APIKeyID := [], Model := str "anthropic.claude-sonnet-4-5", FastModel := [],
      HeavyModel := [] }
    { Version := str "0.3.0", ProfileType := str "bedrock", Profile := str "p",
      Region := str "r", CrossRegion := str "global", BaseURL := [],
      APIKeyID := [],
      Model := str "global.anthropic.claude-sonnet-4-5-20250929-v1:0",
      FastModel := [],
      HeavyModel := str "global.anthropic.claude-sonnet-4-5-20250929-v1:0" }
    [{ Version := str "0.3.0", ProfileType := str "bedrock", Profile := str "p",
       Region := str "r", CrossRegion := str "global", BaseURL := [],
       APIKeyID := [],
       Model := str "global.anthropic.claude-sonnet-4-5-20250929-v1:0",
       FastModel := [], HeavyModel := [] },
     { Version := str "0.3.0", ProfileType := str "bedrock", Profile := str "p",
       Region := str "r", CrossRegion := str "global", BaseURL := [],
       APIKeyID := [],
       Model := str "global.anthropic.claude-sonnet-4-5-20250929-v1:0",
       FastModel := [],
       HeavyModel := str "global.anthropic.claude-sonnet-4-5-20250929-v1:0" }]
    (Or.inr (Or.inr rfl)) (by decide)).1
